import Mathlib

/-
Verification development for the DES-TWIN battery-swap simulation engine.

Shallow embedding of the simulation core:
  src/backend/app/simulation/assets.py   (Battery, Station, charging loop, swap handler)
  src/backend/app/simulation/engine.py   (SimulationOrchestrator: interventions, arrivals)
  src/backend/app/schemas/sim_config.py  (config schemas, intervention validation)
  src/backend/app/data_loader.py         (load_real_network fallback values)

All simulated time and SoC arithmetic is done in Python floats on values
that are exact in binary or reached only through the rational operations
modelled here; we embed them as rationals.  Python ints are embedded as Int
(or Nat where the source guarantees non-negativity).
-/

/-- Battery status enum, assets.py lines 35-42. -/
inductive BatteryStatus where
  | AVAILABLE
  | CHARGING
  | COOLING
  | DEPLETED
  | IN_SWAP
deriving DecidableEq, Repr

/-- Battery dataclass, assets.py lines 45-72. -/
structure Battery where
  id : String
  soc : ℚ := 100
  capacity_kwh : ℚ := 5
  min_swap_soc : ℚ := 95
  cycle_count : ℕ := 0
  health : ℚ := 1
  status : BatteryStatus := BatteryStatus.AVAILABLE
deriving DecidableEq, Repr

/-- Swappability predicate, assets.py lines 74-81:
soc >= min_swap_soc and status == AVAILABLE. -/
def Battery.isSwappable (b : Battery) : Bool :=
  decide (b.min_swap_soc ≤ b.soc) && decide (b.status = BatteryStatus.AVAILABLE)

/-- BatteryConfig schema defaults, sim_config.py lines 71-84. -/
structure BatteryConfig where
  capacity_kwh : ℚ := 5
  min_swap_soc : ℚ := 95
deriving DecidableEq, Repr

/-- StationConfig schema, sim_config.py lines 87-120.  The schema declares
total_batteries >= 1 and charger_count >= 1 at parse time, but pydantic does
not re-validate on attribute assignment, so intervention application can
produce values outside those bounds; we therefore embed both fields as Int. -/
structure StationConfig where
  id : String
  total_batteries : ℤ := 20
  charger_count : ℤ := 4
  charge_power_kw : ℚ := 60
  swap_time_seconds : ℚ := 90
  grid_power_limit_kw : Option ℚ := none
  cooldown_seconds : ℚ := 60
  battery_config : BatteryConfig := {}
deriving DecidableEq, Repr

/-- StationStats dataclass, assets.py lines 121-143. -/
structure StationStats where
  total_swaps : ℕ := 0
  lost_swaps : ℕ := 0
  total_wait_time : ℚ := 0
  max_wait_time : ℚ := 0
  total_charge_time : ℚ := 0
  total_energy_kwh : ℚ := 0
  peak_queue_length : ℤ := 0
  charger_busy_time : ℚ := 0
deriving DecidableEq, Repr

/-- Telemetry event types, sim_config.py lines 19-30. -/
inductive EventType where
  | VEHICLE_ARRIVAL
  | SWAP_START
  | SWAP_COMPLETE
  | LOST_SWAP
  | CHARGE_START
  | CHARGE_COMPLETE
  | QUEUE_UPDATE
  | STATION_STOCKOUT
  | GRID_LIMIT_HIT
deriving DecidableEq, Repr

/-- Values appearing in event meta_data dictionaries: the claims only
inspect string, rational and integer entries. -/
inductive MetaVal where
  | s (v : String)
  | q (v : ℚ)
  | z (v : ℤ)
deriving DecidableEq, Repr

/-- A telemetry event as appended by SimulationOrchestrator.log_event
(engine.py lines 210-230); Station._log_event (assets.py lines 552-574)
prepends station_id and sim_time to the meta_data mapping. -/
structure TelemetryEvent where
  time : ℚ
  entity_id : String
  event_type : EventType
  meta : List (String × MetaVal)
deriving DecidableEq, Repr

/-- Builds the event a station logs, matching Station._log_event:
meta_data = station_id, sim_time, then the call-site entries. -/
def mkStationEvent (stationId : String) (now : ℚ) (t : EventType)
    (entity : String) (meta : List (String × MetaVal)) : TelemetryEvent :=
  { time := now
    entity_id := entity
    event_type := t
    meta := ("station_id", MetaVal.s stationId) :: ("sim_time", MetaVal.q now) :: meta }

/-
Charge-time function, assets.py Station._calculate_charge_time (lines 482-523).
target_soc is the literal 100.0; 0.5 is the tapering factor.
-/

/-- Translation of Station._calculate_charge_time (assets.py 482-523). -/
def calculateChargeTime (current_soc capacity power : ℚ) : ℚ :=
  let target_soc : ℚ := 100
  let fast_time : ℚ :=
    if current_soc < 80 then
      ((min 80 target_soc - current_soc) / 100 * capacity / power) * 3600
    else 0
  let slow_phase_soc : ℚ := max 0 (target_soc - max current_soc 80)
  let slow_time : ℚ :=
    if 0 < slow_phase_soc then
      (slow_phase_soc / 100 * capacity / (power * (1 / 2))) * 3600
    else 0
  fast_time + slow_time

/-- Charge-time formula exactly as the claim states it: t_fast + t_slow with
t_fast = ((min(80,100) - s0)/100 * cap) / p * 3600 when s0 < 80 else 0, and
t_slow = ((100 - max(s0,80))/100 * cap) / (0.5 * p) * 3600 when
max(s0,80) < 100 else 0. -/
def chargeTimeClaimFormula (s0 cap p : ℚ) : ℚ :=
  let tFast : ℚ := if s0 < 80 then ((min 80 100 - s0) / 100 * cap) / p * 3600 else 0
  let tSlow : ℚ :=
    if max s0 80 < 100 then ((100 - max s0 80) / 100 * cap) / ((1 / 2) * p) * 3600 else 0
  tFast + tSlow

/-- C9: the computed charge time equals t_fast + t_slow as given by the
claim formula, and for s0 = 20, cap = 5, p = 60 the result is exactly
300 seconds. -/
theorem c9_charge_time :
    (∀ s0 cap p : ℚ, calculateChargeTime s0 cap p = chargeTimeClaimFormula s0 cap p) ∧
    calculateChargeTime 20 5 60 = 300 := by
  constructor
  · intro s0 cap p
    simp only [calculateChargeTime, chargeTimeClaimFormula]
    rcases lt_or_le (max s0 80) 100 with h | h
    · have hpos : (0 : ℚ) < max 0 (100 - max s0 80) := by
        rw [lt_max_iff]
        right
        linarith
      have hval : max (0 : ℚ) (100 - max s0 80) = 100 - max s0 80 :=
        max_eq_right (by linarith)
      rw [if_pos h, if_pos hpos, hval]
      split_ifs <;> ring
    · have hneg : ¬ (0 : ℚ) < max 0 (100 - max s0 80) := by
        rw [not_lt, max_le_iff]
        constructor <;> linarith
      rw [if_neg (not_lt.mpr h), if_neg hneg]
  · norm_num [calculateChargeTime]

/-
Initial battery population, Station._initialize_batteries (assets.py 244-277).
The source computes the 80 percent split as int(total_batteries * 0.8); for
every admissible battery count this equals 4 * n / 5 in integer arithmetic
(checked exhaustively for n up to 10^6 against the float expression).
-/

/-- Zero-padded three-digit battery index, mirroring the 03d format spec. -/
def pad3 (i : ℕ) : String :=
  if i < 10 then "00" ++ toString i
  else if i < 100 then "0" ++ toString i
  else toString i

/-- The i-th battery created by Station._initialize_batteries for a station
holding n batteries in total. -/
def initBattery (cfg : StationConfig) (n i : ℕ) : Battery :=
  let bc := cfg.battery_config
  if i < 4 * n / 5 then
    { id := cfg.id ++ "_batt_" ++ pad3 i
      soc := 100
      capacity_kwh := bc.capacity_kwh
      min_swap_soc := bc.min_swap_soc
      status := BatteryStatus.AVAILABLE }
  else
    let initial_soc : ℚ := 50 + (i % 5 : ℕ) * 10
    { id := cfg.id ++ "_batt_" ++ pad3 i
      soc := initial_soc
      capacity_kwh := bc.capacity_kwh
      min_swap_soc := bc.min_swap_soc
      status := if initial_soc < 95 then BatteryStatus.CHARGING else BatteryStatus.AVAILABLE }

/-- Routes each created battery to the pool when is_swappable, otherwise to
the charge queue, preserving creation order (FilterStore.put and Store.put
both append to their item lists). -/
def placeBatteries : List Battery → List Battery × List Battery
  | [] => ([], [])
  | b :: rest =>
    let acc := placeBatteries rest
    if b.isSwappable then (b :: acc.1, acc.2) else (acc.1, b :: acc.2)

/-- The (battery pool, charge queue) contents right after station
construction, assets.py 244-277.  range(x) is empty for x <= 0, hence toNat. -/
def initializeBatteries (cfg : StationConfig) : List Battery × List Battery :=
  placeBatteries ((List.range cfg.total_batteries.toNat).map
    (initBattery cfg cfg.total_batteries.toNat))

/-- placeBatteries splits a list into its swappable and non-swappable
sublists, each in order. -/
theorem placeBatteries_eq_filter (l : List Battery) :
    placeBatteries l =
      (l.filter (fun b => b.isSwappable), l.filter (fun b => !b.isSwappable)) := by
  induction l with
  | nil => rfl
  | cons b rest ih =>
    simp only [placeBatteries, ih, List.filter_cons]
    rcases hb : b.isSwappable with _ | _ <;> simp [hb]

/-- Station used for the C6 examples: five batteries, default battery
config (min_swap_soc 95). -/
def c6cfg : StationConfig := { id := "s1", total_batteries := 5 }

/-- A battery with index at or above the 80 percent split starts at the
staggered soc with status CHARGING (the staggered socs 50..90 all lie
below the hard-coded literal 95 in the status conditional). -/
theorem initBattery_stagger_eq (cfg : StationConfig) (n i : ℕ)
    (h : ¬ i < 4 * n / 5) :
    initBattery cfg n i =
      { id := cfg.id ++ "_batt_" ++ pad3 i
        soc := 50 + (i % 5 : ℕ) * 10
        capacity_kwh := cfg.battery_config.capacity_kwh
        min_swap_soc := cfg.battery_config.min_swap_soc
        status := BatteryStatus.CHARGING } := by
  have hsoclt : (50 + ((i % 5 : ℕ) : ℚ) * 10) < 95 := by
    have h4 : i % 5 ≤ 4 := Nat.le_of_lt_succ (Nat.mod_lt _ (by norm_num))
    have h4q : ((i % 5 : ℕ) : ℚ) ≤ 4 := by exact_mod_cast h4
    linarith
  simp [initBattery, h, hsoclt]

/-- A staggered-index battery of the initial population lands on the charge
queue. -/
theorem initBattery_stagger_mem_queue (cfg : StationConfig) (i : ℕ)
    (hi : i < cfg.total_batteries.toNat)
    (h : ¬ i < 4 * cfg.total_batteries.toNat / 5) :
    initBattery cfg cfg.total_batteries.toNat i ∈ (initializeBatteries cfg).2 := by
  have hmem : initBattery cfg cfg.total_batteries.toNat i ∈
      (List.range cfg.total_batteries.toNat).map (initBattery cfg cfg.total_batteries.toNat) :=
    List.mem_map_of_mem _ (List.mem_range.mpr hi)
  have hsw : (initBattery cfg cfg.total_batteries.toNat i).isSwappable = false := by
    rw [initBattery_stagger_eq cfg _ i h]
    simp [Battery.isSwappable]
  simp only [initializeBatteries, placeBatteries_eq_filter]
  exact List.mem_filter.mpr ⟨hmem, by simp [hsw]⟩

/-- C6 counterexample: with total_batteries = 5, battery index 4 is a
"remaining" battery (4 = floor(0.8*5)); the source gives it status CHARGING,
not DEPLETED as the claim states, while still enqueueing it on the charge
queue. -/
theorem c6_counterexample :
    (initBattery c6cfg 5 4).status = BatteryStatus.CHARGING ∧
    (initBattery c6cfg 5 4).status ≠ BatteryStatus.DEPLETED ∧
    initBattery c6cfg 5 4 ∈ (initializeBatteries c6cfg).2 := by
  have heq := initBattery_stagger_eq c6cfg 5 4 (by decide)
  refine ⟨by rw [heq], by rw [heq]; decide, ?_⟩
  exact initBattery_stagger_mem_queue c6cfg 4 (by decide) (by decide)

/-- C6 amended: at station initialization with total_batteries = n, every
battery with index i < floor(0.8*n) starts AVAILABLE at soc 100 and is
placed in the battery pool, and every remaining battery starts at
soc = 50 + (i mod 5)*10 with status CHARGING (not DEPLETED) and is enqueued
on the charge queue.  The pool placement of the full batteries needs
min_swap_soc <= 100, which the schema guarantees (80 <= min_swap_soc <= 100). -/
theorem c6_initial_batteries (cfg : StationConfig)
    (h100 : cfg.battery_config.min_swap_soc ≤ 100)
    (i : ℕ) (hi : i < cfg.total_batteries.toNat) :
    (i < 4 * cfg.total_batteries.toNat / 5 →
      (initBattery cfg cfg.total_batteries.toNat i).soc = 100 ∧
      (initBattery cfg cfg.total_batteries.toNat i).status = BatteryStatus.AVAILABLE ∧
      initBattery cfg cfg.total_batteries.toNat i ∈ (initializeBatteries cfg).1) ∧
    (4 * cfg.total_batteries.toNat / 5 ≤ i →
      (initBattery cfg cfg.total_batteries.toNat i).soc = 50 + (i % 5 : ℕ) * 10 ∧
      (initBattery cfg cfg.total_batteries.toNat i).status = BatteryStatus.CHARGING ∧
      initBattery cfg cfg.total_batteries.toNat i ∈ (initializeBatteries cfg).2) := by
  set n := cfg.total_batteries.toNat with hn
  have hmem : initBattery cfg n i ∈ (List.range n).map (initBattery cfg n) :=
    List.mem_map_of_mem _ (List.mem_range.mpr hi)
  constructor
  · intro hlt
    have hb : initBattery cfg n i =
        { id := cfg.id ++ "_batt_" ++ pad3 i
          soc := 100
          capacity_kwh := cfg.battery_config.capacity_kwh
          min_swap_soc := cfg.battery_config.min_swap_soc
          status := BatteryStatus.AVAILABLE } := by
      simp [initBattery, hlt]
    refine ⟨by rw [hb], by rw [hb], ?_⟩
    have hsw : (initBattery cfg n i).isSwappable = true := by
      rw [hb]
      simp [Battery.isSwappable, h100]
    simp only [initializeBatteries, placeBatteries_eq_filter, ← hn]
    exact List.mem_filter.mpr ⟨hmem, hsw⟩
  · intro hge
    have hnlt : ¬ i < 4 * n / 5 := not_lt.mpr hge
    have hb := initBattery_stagger_eq cfg n i hnlt
    exact ⟨by rw [hb], by rw [hb],
      initBattery_stagger_mem_queue cfg i (hn ▸ hi) (hn ▸ hnlt)⟩

/-- Witness for the amended C6 theorem at a concrete station: index 4 of a
five-battery station is enqueued on the charge queue with status CHARGING. -/
theorem c6_initial_batteries_witness :
    (initBattery c6cfg 5 4).status = BatteryStatus.CHARGING ∧
    initBattery c6cfg 5 4 ∈ (initializeBatteries c6cfg).2 := by
  have h := (c6_initial_batteries c6cfg (by norm_num [c6cfg]) 4 (by decide)).2
    (by decide)
  exact ⟨h.2.1, h.2.2⟩

/-
Swap handler, Station.handle_vehicle_arrival (assets.py 279-397).
The segment from entry up to the stockout return (lines 309-340) performs no
yield, so it runs atomically at one simulated instant; we embed it as a pure
transition.  Mutable station state relevant to that segment: the battery
pool, the charge queue, the stats record and current_queue_length.
-/

/-- Runtime station state touched by the swap handler. -/
structure StationState where
  config : StationConfig
  pool : List Battery
  charge_queue : List Battery
  stats : StationStats
  current_queue_length : ℤ
deriving DecidableEq, Repr

/-- Count of swappable batteries in the pool, assets.py line 322. -/
def swappableCount (pool : List Battery) : ℕ :=
  (pool.filter (fun b => b.isSwappable)).length

/-- Result of the synchronous prefix of handle_vehicle_arrival: either the
vehicle is lost to stockout (the handler returned False without suspending)
or control falls through to the battery_pool.get call. -/
inductive ArrivalSync where
  | lost (st : StationState) (evs : List TelemetryEvent)
  | proceed (st : StationState) (evs : List TelemetryEvent)
deriving DecidableEq, Repr

/-- Translation of assets.py lines 309-340 (entry bookkeeping, VEHICLE_ARRIVAL
event, stockout check and the stockout early return). -/
def handleArrivalCheck (st : StationState) (now : ℚ) (vehicleId : String) : ArrivalSync :=
  let q1 := st.current_queue_length + 1
  let stats1 := { st.stats with peak_queue_length := max st.stats.peak_queue_length q1 }
  let ev1 := mkStationEvent st.config.id now EventType.VEHICLE_ARRIVAL vehicleId
    [("queue_length", MetaVal.z q1)]
  let available := swappableCount st.pool
  if available = 0 then
    let ev2 := mkStationEvent st.config.id now EventType.LOST_SWAP vehicleId
      [("reason", MetaVal.s "stockout"), ("queue_length", MetaVal.z q1)]
    ArrivalSync.lost
      { st with
          stats := { stats1 with lost_swaps := stats1.lost_swaps + 1 }
          current_queue_length := q1 - 1 }
      [ev1, ev2]
  else
    ArrivalSync.proceed { st with stats := stats1, current_queue_length := q1 } [ev1]

/-- C4: when the stockout check finds no swappable battery, the handler emits
VEHICLE_ARRIVAL then LOST_SWAP with reason stockout, increments lost_swaps by
exactly one, undoes the entry increment of current_queue_length, and returns
False immediately (the .lost constructor marks the no-yield early return).
The pool, total_swaps and both wait-time statistics are untouched. -/
theorem c4_stockout_path (st : StationState) (now : ℚ) (vehicleId : String)
    (h : swappableCount st.pool = 0) :
    handleArrivalCheck st now vehicleId =
      ArrivalSync.lost
        { st with
            stats := { st.stats with
                lost_swaps := st.stats.lost_swaps + 1
                peak_queue_length := max st.stats.peak_queue_length (st.current_queue_length + 1) }
            current_queue_length := st.current_queue_length }
        [ mkStationEvent st.config.id now EventType.VEHICLE_ARRIVAL vehicleId
            [("queue_length", MetaVal.z (st.current_queue_length + 1))],
          mkStationEvent st.config.id now EventType.LOST_SWAP vehicleId
            [("reason", MetaVal.s "stockout"),
             ("queue_length", MetaVal.z (st.current_queue_length + 1))] ] := by
  simp [handleArrivalCheck, h]

/-- Concrete stockout state: a pool holding one depleted battery (nothing
swappable), one waiting vehicle not yet counted. -/
def c4state : StationState :=
  { config := { id := "s1" }
    pool := [{ id := "b0", soc := 20, status := BatteryStatus.DEPLETED }]
    charge_queue := []
    stats := {}
    current_queue_length := 0 }

/-- Witness for C4: the theorem applied to the concrete stockout state. -/
theorem c4_stockout_path_witness :
    handleArrivalCheck c4state 0 "veh_1" =
      ArrivalSync.lost
        { c4state with
            stats := { lost_swaps := 1, peak_queue_length := 1 }
            current_queue_length := 0 }
        [ mkStationEvent "s1" 0 EventType.VEHICLE_ARRIVAL "veh_1"
            [("queue_length", MetaVal.z 1)],
          mkStationEvent "s1" 0 EventType.LOST_SWAP "veh_1"
            [("reason", MetaVal.s "stockout"), ("queue_length", MetaVal.z 1)] ] := by
  rw [c4_stockout_path c4state 0 "veh_1" (by norm_num [c4state, swappableCount,
    Battery.isSwappable])]
  norm_num [c4state]

/-
Scenario interventions: Intervention.validate_intervention_params
(sim_config.py 227-253) and SimulationOrchestrator._apply_single_intervention
(engine.py 138-198).  The validator only checks that a target id and the
required parameter NAMES are present; parameter values are never range
checked, and pydantic does not re-validate StationConfig fields on
assignment, so MODIFY_CHARGERS / MODIFY_INVENTORY can drive charger_count
and total_batteries outside the schema bounds.  The claims inspect only the
integer-valued parameters new_count and delta, so parameters are embedded as
an integer-valued association list.
-/

/-- Intervention type enum, sim_config.py lines 33-42. -/
inductive InterventionType where
  | ADD_STATION
  | REMOVE_STATION
  | MODIFY_CHARGERS
  | MODIFY_INVENTORY
  | DEMAND_MULTIPLIER
  | POLICY_CHANGE
  | INJECT_FAULT
deriving DecidableEq, Repr

/-- Intervention record, sim_config.py lines 208-225. -/
structure Intervention where
  type : InterventionType
  target_station_id : Option String := none
  parameters : List (String × ℤ) := []
deriving DecidableEq, Repr

/-- The required_params table, sim_config.py lines 230-238. -/
def requiredInterventionParams : InterventionType → List String
  | InterventionType.ADD_STATION => ["id", "location", "charger_count", "total_batteries"]
  | InterventionType.REMOVE_STATION => []
  | InterventionType.MODIFY_CHARGERS => ["new_count"]
  | InterventionType.MODIFY_INVENTORY => ["delta"]
  | InterventionType.DEMAND_MULTIPLIER => ["multiplier"]
  | InterventionType.POLICY_CHANGE => ["policy_name", "new_value"]
  | InterventionType.INJECT_FAULT => ["fault_type", "duration_seconds"]

/-- Which intervention types require target_station_id, sim_config.py 240-247. -/
def needsTargetStation : InterventionType → Bool
  | InterventionType.REMOVE_STATION => true
  | InterventionType.MODIFY_CHARGERS => true
  | InterventionType.MODIFY_INVENTORY => true
  | InterventionType.INJECT_FAULT => true
  | _ => false

/-- Translation of Intervention.validate_intervention_params
(sim_config.py 227-253): true when the model validator accepts the
intervention, false when it raises ValueError. -/
def validateInterventionParams (iv : Intervention) : Bool :=
  (!(needsTargetStation iv.type) || iv.target_station_id.isSome) &&
  (requiredInterventionParams iv.type).all
    (fun k => ((iv.parameters.lookup k).isSome : Bool))

/-- Integer parameter access, parameters[key] after validation guaranteed
the key is present. -/
def paramZ (iv : Intervention) (k : String) : ℤ :=
  (iv.parameters.lookup k).getD 0

/-- Translation of the MODIFY_CHARGERS / MODIFY_INVENTORY / REMOVE_STATION
arms of _apply_single_intervention (engine.py 152-198).  The station dict is
embedded as an id-keyed list; updating a key maps over the list.  The
ADD_STATION arm builds a new StationConfig from non-integer parameters no
claim touches and is embedded as the identity here; DEMAND_MULTIPLIER,
POLICY_CHANGE and INJECT_FAULT have no arm in the source match statement and
leave the dict unchanged. -/
def applySingleIntervention (stations : List StationConfig) (iv : Intervention) :
    List StationConfig :=
  match iv.type with
  | InterventionType.MODIFY_CHARGERS =>
    match iv.target_station_id with
    | some tid =>
      stations.map (fun s =>
        if s.id = tid then { s with charger_count := paramZ iv "new_count" } else s)
    | none => stations
  | InterventionType.MODIFY_INVENTORY =>
    match iv.target_station_id with
    | some tid =>
      stations.map (fun s =>
        if s.id = tid then { s with total_batteries := s.total_batteries + paramZ iv "delta" }
        else s)
    | none => stations
  | InterventionType.REMOVE_STATION =>
    match iv.target_station_id with
    | some tid => stations.filter (fun s => !(s.id == tid))
    | none => stations
  | _ => stations

/-- The clamp the spec prescribes for MODIFY_INVENTORY.  Modelled from the
spec: total_batteries += delta, clamped so the result stays at least 1
(the source has no such clamp). -/
def modifyInventorySpecClamp (total delta : ℤ) : ℤ :=
  max 1 (total + delta)

/-- Base station used by the intervention examples (schema defaults:
charger_count 4, total_batteries 20). -/
def ivStation : StationConfig := { id := "s1" }

/-- C5: a MODIFY_CHARGERS intervention with new_count = 0 passes
validate_intervention_params (which only checks that the parameter name is
present) and _apply_single_intervention then sets charger_count to 0, so
charger_count does not stay at least 1 after interventions are applied.
No InvalidConfig error is raised; the run later dies in the simpy Resource
constructor with a bare ValueError. -/
theorem c5_modify_chargers_accepts_zero :
    validateInterventionParams
      { type := InterventionType.MODIFY_CHARGERS
        target_station_id := some "s1"
        parameters := [("new_count", 0)] } = true ∧
    applySingleIntervention [ivStation]
      { type := InterventionType.MODIFY_CHARGERS
        target_station_id := some "s1"
        parameters := [("new_count", 0)] } =
      [{ ivStation with charger_count := 0 }] ∧
    ¬ (1 : ℤ) ≤ ({ ivStation with charger_count := 0 } : StationConfig).charger_count := by
  refine ⟨by decide, ?_, by decide⟩
  simp [applySingleIntervention, ivStation, paramZ]

/-- C8: _apply_single_intervention adds delta to total_batteries with no
clamp: with total_batteries = 20 and delta = -25 the station ends with
total_batteries = -5, not the claimed max 1 (20 - 25) = 1. -/
theorem c8_modify_inventory_no_clamp :
    applySingleIntervention [ivStation]
      { type := InterventionType.MODIFY_INVENTORY
        target_station_id := some "s1"
        parameters := [("delta", -25)] } =
      [{ ivStation with total_batteries := -5 }] ∧
    modifyInventorySpecClamp 20 (-25) = 1 ∧
    ({ ivStation with total_batteries := -5 } : StationConfig).total_batteries ≠
      modifyInventorySpecClamp 20 (-25) ∧
    validateInterventionParams
      { type := InterventionType.MODIFY_INVENTORY
        target_station_id := some "s1"
        parameters := [("delta", -25)] } = true := by
  refine ⟨?_, by decide, by decide, by decide⟩
  simp [applySingleIntervention, ivStation, paramZ]

/-
Arrival generation: SimulationOrchestrator._vehicle_arrival_generator
(engine.py 232-328) and the real-network loader fallback values
(data_loader.py).  load_real_network ALWAYS returns a positive
mean_arrival_time_min: 10.0 when Partners.xlsx is absent or unreadable
(lines 29 and 39), and a 15.0 default when the ChargingEvents sheet is
absent (line 55).  The generator takes the 60/mean branch whenever
mean_arrival_time_min > 0 and only the demand-curve branch divides by the
number of stations.
-/

/-- The mean_arrival_time_min value load_real_network returns when no data
file is present (data_loader.py line 29: return [], 10.0). -/
def loadRealNetworkNoDataMean : ℚ := 10

/-- The default mean used when Partners.xlsx exists but ChargingEvents.xlsx
is absent (data_loader.py line 55). -/
def loadRealNetworkDefaultMean : ℚ := 15

/-- DemandCurve schema, sim_config.py lines 175-205: 24 base rates plus
sparse hour multipliers. -/
structure DemandCurve where
  base_arrivals_per_hour : List ℚ
  multipliers : List (ℕ × ℚ) := []
deriving DecidableEq, Repr

/-- DemandCurve.get_rate (sim_config.py 194-205):
base_arrivals_per_hour[hour % 24] * multipliers.get(hour, 1.0).  The schema
pins the list length to 24, so the getD default is never consulted for
valid configs. -/
def DemandCurve.getRate (c : DemandCurve) (hour : ℕ) : ℚ :=
  (c.base_arrivals_per_hour.getD (hour % 24) 0) *
    ((c.multipliers.lookup hour).getD 1)

/-- The SimulationConfig fields the embedded claims read
(sim_config.py 283-338).  scenario_adjustments is
scenario.demand_adjustments, or empty when scenario is None
(engine.py 248-252). -/
structure SimulationConfig where
  duration_days : ℤ := 1
  random_seed : ℕ := 42
  demand_multiplier : ℚ := 1
  stations : List StationConfig := []
  demand_curve : DemandCurve := { base_arrivals_per_hour := List.replicate 24 10 }
  scenario_adjustments : List (ℕ × ℚ) := []
deriving DecidableEq, Repr

/-- One rate computation of the arrival-generator loop, engine.py 254-308:
the per-station rate the exponential draw is based on, given the loaded
mean_arrival_time_min and the number of stations in the orchestrator dict.
hasattr(self, mean_arrival_time_min) is always true because __init__ always
assigns it (engine.py line 88). -/
def stationRate (config : SimulationConfig) (meanArrivalTimeMin : ℚ)
    (numStations : ℕ) (hour : ℕ) : ℚ :=
  let base_rate : ℚ :=
    if 0 < meanArrivalTimeMin then 60 / meanArrivalTimeMin
    else config.demand_curve.getRate hour
  let rate : ℚ := base_rate * config.demand_multiplier
  let rate : ℚ :=
    match config.scenario_adjustments.lookup hour with
    | some adj => rate * adj
    | none => rate
  if 0 < meanArrivalTimeMin then rate
  else if numStations ≠ 0 then rate / (numStations : ℚ) else rate

/-- Per-station rate exactly as the claim states it: divide the demand-curve
city rate by N unless real data is PRESENT with positive mean, in which case
use 60/mean. -/
def stationRateClaimFormula (realDataPresent : Bool) (mean : ℚ)
    (config : SimulationConfig) (numStations : ℕ) (hour : ℕ) : ℚ :=
  if realDataPresent && decide (0 < mean) then 60 / mean
  else
    config.demand_curve.getRate hour * config.demand_multiplier *
      ((config.scenario_adjustments.lookup hour).getD 1) / (numStations : ℚ)

/-- Two-station configuration with a flat 10/hour demand curve for the C3
counterexample. -/
def c3cfg : SimulationConfig :=
  { stations := [{ id := "s1" }, { id := "s2" }] }

/-- C3 counterexample: with no real-network data source available the loader
still reports mean_arrival_time_min = 10.0, so the generator computes
60/10 = 6 arrivals/hour per station and never divides by N; the claim
formula (demand-curve rate 10 times multiplier 1 over N = 2) gives 5. -/
theorem c3_counterexample :
    stationRate c3cfg loadRealNetworkNoDataMean 2 0 = 6 ∧
    stationRateClaimFormula false loadRealNetworkNoDataMean c3cfg 2 0 = 5 ∧
    (6 : ℚ) ≠ 5 := by
  refine ⟨?_, ?_, by norm_num⟩
  · norm_num [stationRate, loadRealNetworkNoDataMean, c3cfg]
  · norm_num [stationRateClaimFormula, loadRealNetworkNoDataMean, c3cfg,
      DemandCurve.getRate]

/-- C3 amended: the generator picks the 60/mean branch whenever the loaded
mean_arrival_time_min is positive, whether or not real data was actually
present (the no-data fallback 10.0 is positive), and divides the
demand-curve rate by the station count only when the mean is non-positive. -/
theorem c3_rate_branches (config : SimulationConfig) (mean : ℚ)
    (numStations hour : ℕ) :
    (0 < mean →
      stationRate config mean numStations hour =
        60 / mean * config.demand_multiplier *
          ((config.scenario_adjustments.lookup hour).getD 1)) ∧
    (mean ≤ 0 → numStations ≠ 0 →
      stationRate config mean numStations hour =
        config.demand_curve.getRate hour * config.demand_multiplier *
          ((config.scenario_adjustments.lookup hour).getD 1) / (numStations : ℚ)) := by
  constructor
  · intro hpos
    simp only [stationRate, if_pos hpos]
    cases config.scenario_adjustments.lookup hour <;> simp
  · intro hnp hn
    have hneg : ¬ 0 < mean := not_lt.mpr hnp
    simp only [stationRate, if_neg hneg, if_pos hn]
    cases config.scenario_adjustments.lookup hour <;> simp

/-- Witness for the amended C3 theorem: at the no-data fallback mean 10 and
a two-station network the computed rate is 60/10 = 6 per station. -/
theorem c3_rate_branches_witness :
    stationRate c3cfg loadRealNetworkNoDataMean 2 0 =
      60 / loadRealNetworkNoDataMean * c3cfg.demand_multiplier *
        ((c3cfg.scenario_adjustments.lookup 0).getD 1) :=
  (c3_rate_branches c3cfg loadRealNetworkNoDataMean 2 0).1
    (by norm_num [loadRealNetworkNoDataMean])

/-
Vehicle identity: create_vehicle (assets.py 625-650) builds
vehicle_id = "vehicle_" + uuid4().hex[:8].  uuid4 draws from OS entropy and
takes no seed; the orchestrator's seeded generators (engine.py 77-78) are
used only for the inter-arrival interval and jitter draws, and the urgency
draw uses the unseeded global random module.  The vehicle id becomes the
entity_id of the VEHICLE_ARRIVAL / SWAP_START / SWAP_COMPLETE / LOST_SWAP
events for that vehicle (engine.py 320-328, assets.py 279-397).
-/

/-- Translation of the vehicle-id construction in create_vehicle
(assets.py line 642). -/
def createVehicleId (uuid4Hex : String) : String :=
  "vehicle_" ++ uuid4Hex.take 8

/-- The entity_id carried by a vehicle's telemetry events for a run with the
given configuration: it is a function of the uuid4 draw alone; the
configuration (and so its random_seed) is not consulted anywhere in
create_vehicle. -/
def arrivalEntityId (_config : SimulationConfig) (uuid4Hex : String) : String :=
  createVehicleId uuid4Hex

/-- Configuration shared by the two hypothetical identical runs of C1. -/
def c1cfg : SimulationConfig := { stations := [{ id := "s1" }], random_seed := 42 }

/-- C1: two runs with the byte-identical configuration (and seed 42) whose
uuid4 generators return different bytes carry different entity ids on their
vehicle events, so the event trace is not a function of (config, seed);
uuid4 output is OS entropy, which the seed does not determine. -/
theorem c1_entity_id_not_seed_determined :
    arrivalEntityId c1cfg "00000000deadbeef" ≠ arrivalEntityId c1cfg "11111111deadbeef" ∧
    c1cfg.random_seed = 42 := by
  refine ⟨?_, rfl⟩
  decide

/-
Background charging loop, Station._charging_loop (assets.py 399-480).
The loop is ONE long-lived process per station (started once in __init__,
assets.py line 232): it dequeues a battery, acquires a charger, cools,
charges, releases, returns the battery to the pool, and only then dequeues
the next battery.  Because it is the only process that ever requests the
charger Resource, the acquire succeeds immediately whenever
charger_count >= 1, and active_chargers (mutated only at assets.py lines
430 and 477) never exceeds 1.  One full iteration is embedded as a pure
state transition; a run over a queue of batteries is their sequential
composition.  activeHistory records the value of active_chargers after
every mutation, i.e. the values observable at any simulated instant.
-/

/-- Translation of Station._is_grid_limited (assets.py 540-550) at a given
active_chargers count. -/
def isGridLimited (cfg : StationConfig) (active : ℤ) : Bool :=
  match cfg.grid_power_limit_kw with
  | none => false
  | some lim => decide (lim < (active : ℚ) * cfg.charge_power_kw)

/-- State threaded through iterations of the charging loop. -/
structure ChargeLoopState where
  now : ℚ
  pool : List Battery
  stats : StationStats
  active_chargers : ℤ
  events : List TelemetryEvent
  activeHistory : List ℤ
deriving DecidableEq, Repr

/-- One iteration of the charging-loop body after the queue get
(assets.py 426-480): acquire charger (immediate, single requester),
increment active_chargers, grid check, cooldown, CHARGE_START, charge,
complete, stats, CHARGE_COMPLETE, decrement active_chargers, release,
return battery to pool. -/
def chargeOneBattery (cfg : StationConfig) (st : ChargeLoopState) (b : Battery) :
    ChargeLoopState :=
  let charge_start := st.now
  let active1 := st.active_chargers + 1
  let evGrid : List TelemetryEvent :=
    if isGridLimited cfg active1 then
      [mkStationEvent cfg.id charge_start EventType.GRID_LIMIT_HIT cfg.id
        [("active_chargers", MetaVal.z active1)]]
    else []
  let tCool : ℚ := if 0 < cfg.cooldown_seconds then cfg.cooldown_seconds else 0
  let tStartCharge := charge_start + tCool
  let evStart := mkStationEvent cfg.id tStartCharge EventType.CHARGE_START b.id
    [("initial_soc", MetaVal.q b.soc)]
  let charge_time := calculateChargeTime b.soc b.capacity_kwh cfg.charge_power_kw
  let tDone := tStartCharge + charge_time
  let charged : Battery := { b with soc := 100, status := BatteryStatus.AVAILABLE }
  let charge_duration := tDone - charge_start
  let energy_used := cfg.charge_power_kw * (3 / 4) * (charge_duration / 3600)
  let evDone := mkStationEvent cfg.id tDone EventType.CHARGE_COMPLETE b.id
    [("final_soc", MetaVal.q 100), ("duration", MetaVal.q charge_duration),
     ("energy_kwh", MetaVal.q energy_used)]
  { now := tDone
    pool := st.pool ++ [charged]
    stats := { st.stats with
      total_charge_time := st.stats.total_charge_time + charge_duration
      total_energy_kwh := st.stats.total_energy_kwh + energy_used
      charger_busy_time := st.stats.charger_busy_time + charge_duration }
    active_chargers := active1 - 1
    events := st.events ++ evGrid ++ [evStart, evDone]
    activeHistory := st.activeHistory ++ [active1, active1 - 1] }

/-- The charging loop processing a queue of batteries front to back. -/
def chargingLoopRun (cfg : StationConfig) : List Battery → ChargeLoopState → ChargeLoopState
  | [], st => st
  | b :: rest, st => chargingLoopRun cfg rest (chargeOneBattery cfg st b)

/-- Charging-loop state at station start: time t, nothing charged yet. -/
def initialChargeLoopState (t : ℚ) : ChargeLoopState :=
  { now := t, pool := [], stats := {}, active_chargers := 0, events := [], activeHistory := [] }

/-- The cooldown actually waited per iteration (the timeout only runs when
cooldown_seconds > 0). -/
def effectiveCooldown (cfg : StationConfig) : ℚ :=
  if 0 < cfg.cooldown_seconds then cfg.cooldown_seconds else 0

/-- Finish time of a charging-loop run: each battery adds its cooldown plus
its charge time, sequentially. -/
theorem chargingLoopRun_now (cfg : StationConfig) (queue : List Battery)
    (st : ChargeLoopState) :
    (chargingLoopRun cfg queue st).now =
      st.now + (queue.map (fun b =>
        effectiveCooldown cfg +
          calculateChargeTime b.soc b.capacity_kwh cfg.charge_power_kw)).sum := by
  induction queue generalizing st with
  | nil => simp [chargingLoopRun]
  | cons b rest ih =>
    simp only [chargingLoopRun, ih, List.map_cons, List.sum_cons]
    simp only [chargeOneBattery, effectiveCooldown]
    ring

/-- The time the claimed closed form predicts for emptying the queue:
sum of charge times divided by charger_count. -/
def chargingClaimTime (cfg : StationConfig) (queue : List Battery) : ℚ :=
  (queue.map (fun b =>
    calculateChargeTime b.soc b.capacity_kwh cfg.charge_power_kw)).sum /
    (cfg.charger_count : ℚ)

/-- C2 amended: with no arrivals, the single sequential charging-loop
process finishes recharging an initial charge queue at
sum over the queue of (effective cooldown + charge time); charger_count
never enters (the loop charges one battery at a time), and the last battery
leaves the charge queue when all earlier ones have finished, i.e. at the
same sum over the queue minus its last element. -/
theorem c2_sequential_charging_time (cfg : StationConfig) (queue : List Battery) (t : ℚ) :
    (chargingLoopRun cfg queue (initialChargeLoopState t)).now =
      t + (queue.map (fun b =>
        effectiveCooldown cfg +
          calculateChargeTime b.soc b.capacity_kwh cfg.charge_power_kw)).sum ∧
    (chargingLoopRun cfg queue.dropLast (initialChargeLoopState t)).now =
      t + (queue.dropLast.map (fun b =>
        effectiveCooldown cfg +
          calculateChargeTime b.soc b.capacity_kwh cfg.charge_power_kw)).sum :=
  ⟨chargingLoopRun_now cfg queue (initialChargeLoopState t),
   chargingLoopRun_now cfg queue.dropLast (initialChargeLoopState t)⟩

/-- Station for the C2 counterexample: three chargers, zero cooldown,
60 kW, three depleted batteries of 5 kWh at soc 20 (300 s charge each). -/
def c2cfg : StationConfig :=
  { id := "s1", charger_count := 3, cooldown_seconds := 0 }

/-- The three-battery initial charge queue of the C2 counterexample. -/
def c2queue : List Battery :=
  [ { id := "b0", soc := 20, status := BatteryStatus.DEPLETED },
    { id := "b1", soc := 20, status := BatteryStatus.DEPLETED },
    { id := "b2", soc := 20, status := BatteryStatus.DEPLETED } ]

/-- C2 counterexample: the claim predicts the queue is emptied by
(300+300+300)/3 = 300 s, but the sequential loop removes the last battery
from the queue at 600 s and finishes recharging at 900 s, far beyond any
scheduler tick. -/
theorem c2_counterexample :
    chargingClaimTime c2cfg c2queue = 300 ∧
    (chargingLoopRun c2cfg c2queue.dropLast (initialChargeLoopState 0)).now = 600 ∧
    (chargingLoopRun c2cfg c2queue (initialChargeLoopState 0)).now = 900 ∧
    (600 : ℚ) ≠ 300 ∧ (900 : ℚ) ≠ 300 := by
  have hct : calculateChargeTime 20 5 60 = 300 := by norm_num [calculateChargeTime]
  refine ⟨?_, ?_, ?_, by norm_num, by norm_num⟩
  · simp [chargingClaimTime, c2cfg, c2queue, hct]
    norm_num
  · rw [chargingLoopRun_now]
    simp [c2cfg, c2queue, effectiveCooldown, hct, initialChargeLoopState]
    norm_num
  · rw [chargingLoopRun_now]
    simp [c2cfg, c2queue, effectiveCooldown, hct, initialChargeLoopState]
    norm_num

/-- At one active charger the grid check fires exactly when
charge_power_kw alone exceeds the configured limit. -/
theorem isGridLimited_one (cfg : StationConfig) (h : isGridLimited cfg 1 = true) :
    ∃ lim, cfg.grid_power_limit_kw = some lim ∧ lim < cfg.charge_power_kw := by
  unfold isGridLimited at h
  cases hg : cfg.grid_power_limit_kw with
  | none => rw [hg] at h; simp at h
  | some lim =>
    rw [hg] at h
    refine ⟨lim, rfl, ?_⟩
    have := of_decide_eq_true h
    simpa using this

/-- Invariant of the charging loop: starting from zero active chargers, the
loop keeps active_chargers in {0,1} at every observable instant and only
emits GRID_LIMIT_HIT when charge_power_kw alone is over the limit. -/
theorem chargingLoopRun_inv (cfg : StationConfig) (queue : List Battery)
    (st : ChargeLoopState)
    (h0 : st.active_chargers = 0)
    (hh : ∀ v ∈ st.activeHistory, v = 0 ∨ v = 1)
    (he : ∀ e ∈ st.events, e.event_type = EventType.GRID_LIMIT_HIT →
      ∃ lim, cfg.grid_power_limit_kw = some lim ∧ lim < cfg.charge_power_kw) :
    (chargingLoopRun cfg queue st).active_chargers = 0 ∧
    (∀ v ∈ (chargingLoopRun cfg queue st).activeHistory, v = 0 ∨ v = 1) ∧
    (∀ e ∈ (chargingLoopRun cfg queue st).events,
      e.event_type = EventType.GRID_LIMIT_HIT →
      ∃ lim, cfg.grid_power_limit_kw = some lim ∧ lim < cfg.charge_power_kw) := by
  induction queue generalizing st with
  | nil => exact ⟨h0, hh, he⟩
  | cons b rest ih =>
    apply ih
    · simp [chargeOneBattery, h0]
    · intro v hv
      simp only [chargeOneBattery, List.mem_append, List.mem_cons,
        List.not_mem_nil, or_false] at hv
      rcases hv with hv | hv | hv
      · exact hh v hv
      · right; rw [hv, h0]; norm_num
      · left; rw [hv, h0]; norm_num
    · intro e hev htype
      simp only [chargeOneBattery, List.mem_append, List.mem_cons,
        List.not_mem_nil, or_false] at hev
      rcases hev with (hev | hev) | hev | hev
      · exact he e hev htype
      · rw [h0] at hev
        by_cases hg : isGridLimited cfg (0 + 1) = true
        · rw [if_pos hg] at hev
          simp only [List.mem_cons, List.not_mem_nil, or_false] at hev
          exact isGridLimited_one cfg (by simpa using hg)
        · rw [if_neg hg] at hev
          simp at hev
      · rw [hev] at htype
        simp [mkStationEvent] at htype
      · rw [hev] at htype
        simp [mkStationEvent] at htype

/-- C10: over any sequence of batteries the charging loop ever dequeues,
active_chargers is 0 or 1 at every observable instant regardless of
charger_count (the loop is a single sequential process), and every
GRID_LIMIT_HIT event it emits requires charge_power_kw alone to exceed
grid_power_limit_kw. -/
theorem c10_single_active_charger (cfg : StationConfig) (queue : List Battery) (t : ℚ) :
    (∀ v ∈ (chargingLoopRun cfg queue (initialChargeLoopState t)).activeHistory,
      v = 0 ∨ v = 1) ∧
    (∀ e ∈ (chargingLoopRun cfg queue (initialChargeLoopState t)).events,
      e.event_type = EventType.GRID_LIMIT_HIT →
      ∃ lim, cfg.grid_power_limit_kw = some lim ∧ lim < cfg.charge_power_kw) := by
  have h := chargingLoopRun_inv cfg queue (initialChargeLoopState t)
    (by simp [initialChargeLoopState])
    (by simp [initialChargeLoopState])
    (by simp [initialChargeLoopState])
  exact ⟨h.2.1, h.2.2⟩

/-- Station and queue for the C10 witness: a 50 kW grid limit under a 60 kW
charger, one depleted battery. -/
def c10cfg : StationConfig :=
  { id := "s1", grid_power_limit_kw := some 50, cooldown_seconds := 0 }

/-- Single-battery queue for the C10 witness. -/
def c10queue : List Battery :=
  [ { id := "b0", soc := 20, status := BatteryStatus.DEPLETED } ]

/-- Witness for C10: in the concrete run the recorded active-charger values
are all at most 1 (the value 1 is attained). -/
theorem c10_single_active_charger_witness :
    (1 : ℤ) ∈ (chargingLoopRun c10cfg c10queue (initialChargeLoopState 0)).activeHistory ∧
    ((1 : ℤ) = 0 ∨ (1 : ℤ) = 1) := by
  have hmem : (1 : ℤ) ∈
      (chargingLoopRun c10cfg c10queue (initialChargeLoopState 0)).activeHistory := by
    norm_num [chargingLoopRun, chargeOneBattery, initialChargeLoopState]
  exact ⟨hmem, (c10_single_active_charger c10cfg c10queue 0).1 1 hmem⟩

/-
Horizon semantics and swap pairing.  SimulationOrchestrator.run calls
env.run(until=duration_seconds) (engine.py 359); simpy executes events
strictly before that stop time and discards continuations still suspended
when it is reached.  Inside handle_vehicle_arrival the only suspension
between SWAP_START and SWAP_COMPLETE is the single
timeout(swap_time_seconds) at assets.py 369, so SWAP_COMPLETE is logged
exactly swap_time_seconds after SWAP_START when the completion instant lies
before the horizon, and never logged at all when it does not.  Each vehicle
id has exactly one handler process instance, and only that instance emits
SWAP_START / SWAP_COMPLETE events for it, so per-vehicle pairing reduces to
one script.  The success path of one handler instance is embedded as a
timed event script; env.run(until) is the strict-time filter over it.
-/

/-- Timed telemetry of the success path of one handle_vehicle_arrival
instance (assets.py 309-397): VEHICLE_ARRIVAL at arrival time t0,
SWAP_START at the instant tGet when the pool get resolved (wait time
tGet - t0), SWAP_COMPLETE exactly swap_time_seconds later.  qlen is the
queue length recorded on entry. -/
def swapSuccessScript (cfg : StationConfig) (vehicleId : String) (b : Battery)
    (t0 tGet : ℚ) (qlen : ℤ) : List TelemetryEvent :=
  [ mkStationEvent cfg.id t0 EventType.VEHICLE_ARRIVAL vehicleId
      [("queue_length", MetaVal.z qlen)],
    mkStationEvent cfg.id tGet EventType.SWAP_START vehicleId
      [("battery_id", MetaVal.s b.id), ("battery_soc", MetaVal.q b.soc),
       ("wait_time", MetaVal.q (tGet - t0))],
    mkStationEvent cfg.id (tGet + cfg.swap_time_seconds) EventType.SWAP_COMPLETE vehicleId
      [("battery_id", MetaVal.s b.id), ("duration", MetaVal.q cfg.swap_time_seconds)] ]

/-- env.run(until=horizon) executes exactly the scheduled actions whose
simulated time is strictly below the horizon. -/
def emittedBefore (horizon : ℚ) (evs : List TelemetryEvent) : List TelemetryEvent :=
  evs.filter (fun e => decide (e.time < horizon))

/-- C7 amended: for every handler instance, every emitted SWAP_COMPLETE is
preceded by its emitted SWAP_START exactly swap_time_seconds earlier, and an
emitted SWAP_START is followed by its SWAP_COMPLETE whenever the completion
instant falls strictly before the horizon.  A SWAP_START whose completion
instant reaches the horizon stays unpaired (see the counterexample). -/
theorem c7_swap_pairing (cfg : StationConfig) (vehicleId : String) (b : Battery)
    (t0 tGet horizon : ℚ) (qlen : ℤ)
    (hswap : 0 ≤ cfg.swap_time_seconds) :
    (mkStationEvent cfg.id (tGet + cfg.swap_time_seconds) EventType.SWAP_COMPLETE vehicleId
        [("battery_id", MetaVal.s b.id), ("duration", MetaVal.q cfg.swap_time_seconds)] ∈
        emittedBefore horizon (swapSuccessScript cfg vehicleId b t0 tGet qlen) →
      mkStationEvent cfg.id tGet EventType.SWAP_START vehicleId
          [("battery_id", MetaVal.s b.id), ("battery_soc", MetaVal.q b.soc),
           ("wait_time", MetaVal.q (tGet - t0))] ∈
          emittedBefore horizon (swapSuccessScript cfg vehicleId b t0 tGet qlen) ∧
        (tGet + cfg.swap_time_seconds) - tGet = cfg.swap_time_seconds) ∧
    (tGet + cfg.swap_time_seconds < horizon →
      mkStationEvent cfg.id (tGet + cfg.swap_time_seconds) EventType.SWAP_COMPLETE vehicleId
          [("battery_id", MetaVal.s b.id), ("duration", MetaVal.q cfg.swap_time_seconds)] ∈
        emittedBefore horizon (swapSuccessScript cfg vehicleId b t0 tGet qlen)) := by
  constructor
  · intro hdone
    have htime : tGet + cfg.swap_time_seconds < horizon := by
      have := List.mem_filter.mp hdone
      have hdec := this.2
      simpa [mkStationEvent] using of_decide_eq_true hdec
    refine ⟨List.mem_filter.mpr ⟨?_, ?_⟩, by ring⟩
    · simp [swapSuccessScript]
    · simp only [mkStationEvent]
      exact decide_eq_true (by linarith)
  · intro htime
    refine List.mem_filter.mpr ⟨?_, ?_⟩
    · simp [swapSuccessScript]
    · simp only [mkStationEvent]
      exact decide_eq_true htime

/-- Station and battery for the C7 examples (default swap time 90 s). -/
def c7cfg : StationConfig := { id := "s1" }

/-- Fully charged battery handed to the C7 vehicle. -/
def c7batt : Battery := { id := "b7" }

/-- C7 counterexample: a vehicle whose swap starts at 86350 in a one-day run
(horizon 86400) has its SWAP_COMPLETE scheduled at 86440, past the horizon:
the trace of the completed run contains one SWAP_START and no SWAP_COMPLETE
for that vehicle, so the events are not paired one-to-one. -/
theorem c7_counterexample :
    ((emittedBefore 86400 (swapSuccessScript c7cfg "v1" c7batt 86350 86350 1)).filter
        (fun e => decide (e.event_type = EventType.SWAP_START))).length = 1 ∧
    ((emittedBefore 86400 (swapSuccessScript c7cfg "v1" c7batt 86350 86350 1)).filter
        (fun e => decide (e.event_type = EventType.SWAP_COMPLETE))).length = 0 ∧
    (1 : ℕ) ≠ 0 := by
  refine ⟨?_, ?_, by norm_num⟩ <;>
    · norm_num [emittedBefore, swapSuccessScript, c7cfg, mkStationEvent, List.filter]
      decide

/-- Witness for the amended C7 theorem: with a horizon beyond the completion
instant, the SWAP_COMPLETE of a swap started at 86350 is emitted. -/
theorem c7_swap_pairing_witness :
    mkStationEvent c7cfg.id (86350 + c7cfg.swap_time_seconds) EventType.SWAP_COMPLETE "v1"
        [("battery_id", MetaVal.s c7batt.id),
         ("duration", MetaVal.q c7cfg.swap_time_seconds)] ∈
      emittedBefore 90000 (swapSuccessScript c7cfg "v1" c7batt 86350 86350 1) :=
  (c7_swap_pairing c7cfg "v1" c7batt 86350 86350 90000 1
    (by norm_num [c7cfg])).2 (by norm_num [c7cfg])
